import Mathlib

/-!
Verification of the request-to-feature pipeline of `src/app.py`
(HousingPricePrediction).

The embedding models the `predict` route (src/app.py, lines 50-135):
field extraction from the form, the presence / city / numeric-parse /
numeric-range validation chain, one-hot city features, assembly of the
10-column feature vector in the fixed `column_order`, the target-encoder
transform of the location, the model invocation, and the formatting of
the predicted price.  The two external collaborators (the pickled model
and target encoder) are parameters of the pipeline: an encoder is a
function `String → Option ℚ` (`none` = the collaborator raises), a model
is a function `List ℚ → Option ℚ` (`none` = the collaborator raises or
returns nothing usable).  Python floats are modelled as rationals.
-/

namespace HousingPrice

/-- The list `VALID_CITIES` of src/app.py (lines 36-42), in source order. -/
def VALID_CITIES : List String :=
  ["City_chattogram", "City_cumilla", "City_dhaka", "City_gazipur",
   "City_narayanganj-city"]

/-- Failure message of the presence check (src/app.py line 67). -/
def missingFieldMsg : String := "Please fill out all fields."

/-- Failure message of the city domain check (src/app.py line 72). -/
def invalidCityMsg : String := "Invalid city selected."

/-- Failure message of the numeric-parse check (src/app.py line 90). -/
def invalidNumberMsg : String := "Invalid numeric input. Please check your numbers."

/-- Failure message of the numeric-range check (src/app.py line 86). -/
def outOfRangeMsg : String := "All numeric values must be greater than 0."

/-- Message of the generic `except Exception` handler that wraps the whole
route body (src/app.py lines 131-135): every exception not intercepted
earlier — in particular an encoder or model failure — ends here. -/
def genericErrorMsg : String := "An error occurred during prediction. Please try again."

/-- ASCII whitespace stripped by Python's `int()` / `float()` conversions. -/
def isPyWs (c : Char) : Bool :=
  c = ' ' || c = '\t' || c = '\n' || c = '\r' || c = '\x0b' || c = '\x0c'

/-- Strip leading and trailing whitespace from a character list. -/
def trimWs (cs : List Char) : List Char :=
  ((cs.dropWhile isPyWs).reverse.dropWhile isPyWs).reverse

/-- Numeric value of a list of ASCII digits (most significant first). -/
def digitsVal (cs : List Char) : Nat :=
  cs.foldl (fun a c => a * 10 + (c.toNat - 48)) 0

/-- A nonempty all-digit character list. -/
def allDigits (cs : List Char) : Bool :=
  !cs.isEmpty && cs.all Char.isDigit

/-- Sign-free part of Python's `int(str)`: a nonempty ASCII digit string.
(Unicode digits and underscore separators of Python are not modelled;
no claim depends on them.) -/
def pyParseIntCore : List Char → Option Int
  | '+' :: rest => if allDigits rest then some (digitsVal rest : Int) else none
  | '-' :: rest => if allDigits rest then some (-(digitsVal rest : Int)) else none
  | cs => if allDigits cs then some (digitsVal cs : Int) else none

/-- Python's `int(str)` conversion as used on the `bedrooms`, `bathrooms`
and `floor_no` fields (src/app.py lines 77-80): surrounding whitespace is
stripped, then an optional sign followed by one or more digits; anything
else raises `ValueError` (modelled by `none`). -/
def pyParseInt (s : String) : Option Int :=
  pyParseIntCore (trimWs s.toList)

/-- The rational value of a decimal literal with mantissa digits worth
`m`, `k` digits after the decimal point, and decimal exponent `e`. -/
def pyFloatVal (m : Nat) (k : Nat) (e : Int) : ℚ :=
  (m : ℚ) / (10 : ℚ) ^ k * (10 : ℚ) ^ e

/-- Magnitude part of Python's `float(str)`: `digits`, `digits.digits`,
`.digits` or `digits.`, with an optional `e`/`E` exponent.  (`inf`, `nan`,
unicode digits and underscore separators are not modelled; no claim
depends on them.) -/
def pyParseFloatMag (cs : List Char) : Option ℚ :=
  let ip := cs.takeWhile Char.isDigit
  let r1 := cs.drop ip.length
  let fp :=
    match r1 with
    | '.' :: t => t.takeWhile Char.isDigit
    | _ => []
  let r2 :=
    match r1 with
    | '.' :: t => t.drop (t.takeWhile Char.isDigit).length
    | _ => r1
  if ip.isEmpty && fp.isEmpty then none
  else
    match r2 with
    | [] => some (pyFloatVal (digitsVal (ip ++ fp)) fp.length 0)
    | 'e' :: t => pyParseFloatExp (digitsVal (ip ++ fp)) fp.length t
    | 'E' :: t => pyParseFloatExp (digitsVal (ip ++ fp)) fp.length t
    | _ => none
where
  /-- Exponent suffix: optional sign then digits. -/
  pyParseFloatExp (m k : Nat) : List Char → Option ℚ
    | '+' :: d => if allDigits d then some (pyFloatVal m k (digitsVal d : Int)) else none
    | '-' :: d => if allDigits d then some (pyFloatVal m k (-(digitsVal d : Int))) else none
    | d => if allDigits d then some (pyFloatVal m k (digitsVal d : Int)) else none

/-- Python's `float(str)` conversion as used on the `floor_area` field
(src/app.py line 79), with floats modelled as rationals. -/
def pyParseFloat (s : String) : Option ℚ :=
  match trimWs s.toList with
  | '+' :: rest => pyParseFloatMag rest
  | '-' :: rest => (pyParseFloatMag rest).map Neg.neg
  | cs => pyParseFloatMag cs

/-- Split a digit list (least significant first) into groups of three. -/
def chunk3 : List Char → List (List Char)
  | [] => []
  | [a] => [[a]]
  | [a, b] => [[a, b]]
  | a :: b :: c :: rest => [a, b, c] :: chunk3 rest

/-- Insert thousands separators into a digit list (most significant
first), as the `,` option of Python's format spec does. -/
def groupThousands (ds : List Char) : List Char :=
  (List.intercalate [','] (chunk3 ds.reverse)).reverse

/-- Exactly two decimal digits for the cents part. -/
def twoDigits (n : Nat) : String :=
  ⟨if n < 10 then '0' :: Nat.toDigits 10 n else Nat.toDigits 10 n⟩

/-- Python's `f"{x:,.2f}"` formatting of the predicted price
(src/app.py line 119), on rationals: round to a whole number of cents,
group the integer part by thousands, print two decimals.  (Python rounds
the underlying binary double half-to-even; on every value whose scaled
value is not a tie — in particular every value in the claims — the two
agree.) -/
def formatPrice (q : ℚ) : String :=
  let c : ℤ := round (q * 100)
  let n := c.natAbs
  (if c < 0 then "-" else "")
    ++ String.mk (groupThousands (Nat.toDigits 10 (n / 100)))
    ++ "." ++ twoDigits (n % 100)

/-- `str.replace("City_", "")` on a character list: remove every
(left-to-right, non-overlapping) occurrence of `"City_"`
(src/app.py line 123). -/
def removeCityMark : List Char → List Char
  | 'C' :: 'i' :: 't' :: 'y' :: '_' :: rest => removeCityMark rest
  | c :: rest => c :: removeCityMark rest
  | [] => []

/-- Helper for `pyTitle`: the flag records whether the previous character
was alphabetic. -/
def pyTitleAux : Bool → List Char → List Char
  | _, [] => []
  | prevAlpha, c :: rest =>
    (if c.isAlpha then (if prevAlpha then c.toLower else c.toUpper) else c)
      :: pyTitleAux c.isAlpha rest

/-- Python's `str.title()` (src/app.py line 123): each alphabetic run is
capitalised — first letter upper case, the rest lower case.  (ASCII
letters; the five city names contain nothing else.) -/
def pyTitle (s : String) : String :=
  ⟨pyTitleAux false s.toList⟩

/-- The city shown on the success page:
`data['city'].replace('City_', '').title()` (src/app.py line 123). -/
def displayCity (city : String) : String :=
  pyTitle ⟨removeCityMark city.toList⟩

/-- The raw form data extracted at src/app.py lines 55-62:
`request.form.get` yields `None` (here `none`) for an absent field. -/
structure RawRequest where
  city : Option String
  location : Option String
  bedrooms : Option String
  bathrooms : Option String
  floor_area : Option String
  floor_no : Option String

/-- Python truthiness of a form value: `None` and the empty string are
falsy, every other string truthy (src/app.py line 65 applies `all` to
the six values). -/
def strTruthy : Option String → Bool
  | none => false
  | some s => !(s == "")

/-- The presence check `all(data.values())` of src/app.py line 65. -/
def presenceOk (req : RawRequest) : Bool :=
  strTruthy req.city && strTruthy req.location && strTruthy req.bedrooms
    && strTruthy req.bathrooms && strTruthy req.floor_area && strTruthy req.floor_no

/-- The validated input produced by the checks of src/app.py lines 64-90
(`data` plus `numeric_data`). -/
structure Validated where
  city : String
  location : String
  bedrooms : Int
  bathrooms : Int
  floor_area : ℚ
  floor_no : Int
deriving DecidableEq, Repr

/-- The validation chain of src/app.py lines 64-90, in source order:
presence (`not all(data.values())`, line 65), city domain
(`data['city'] not in VALID_CITIES`, line 70), numeric parse
(`int`/`int`/`float`/`int`, lines 77-80, `ValueError` caught at line 88),
numeric range (`any(value <= 0 ...)`, line 84).  The `Except.error`
string is the `prediction_text` the route returns for that failure. -/
def extractValidated (req : RawRequest) : Except String Validated :=
  match req.city, req.location, req.bedrooms, req.bathrooms, req.floor_area, req.floor_no with
  | some city, some location, some bedrooms, some bathrooms, some floor_area, some floor_no =>
    if city = "" ∨ location = "" ∨ bedrooms = "" ∨ bathrooms = ""
        ∨ floor_area = "" ∨ floor_no = "" then
      .error missingFieldMsg
    else if city ∉ VALID_CITIES then
      .error invalidCityMsg
    else
      match pyParseInt bedrooms, pyParseInt bathrooms, pyParseFloat floor_area,
          pyParseInt floor_no with
      | some b, some bt, some fa, some fn =>
        if b ≤ 0 ∨ bt ≤ 0 ∨ fa ≤ 0 ∨ fn ≤ 0 then
          .error outOfRangeMsg
        else
          .ok ⟨city, location, b, bt, fa, fn⟩
      | _, _, _, _ => .error invalidNumberMsg
  | _, _, _, _, _, _ => .error missingFieldMsg

/-- The `city_features` dictionary of src/app.py line 93, read off in
`VALID_CITIES` order (which is also the order of the city block of
`column_order`, lines 107-111). -/
def cityFeatures (city : String) : List ℚ :=
  VALID_CITIES.map (fun c => if c = city then 1 else 0)

/-- The single row of `input_df` after the reordering
`input_df = input_df[column_order]` and the target-encoder transform of
the `Location` column (src/app.py lines 96-115): `column_order` is
`[Bedrooms, Bathrooms, Floor_no, Floor_area, Location, City_chattogram,
City_cumilla, City_dhaka, City_gazipur, City_narayanganj-city]`. -/
def assembleVector (v : Validated) (encLoc : ℚ) : List ℚ :=
  [(v.bedrooms : ℚ), (v.bathrooms : ℚ), (v.floor_no : ℚ), v.floor_area, encLoc]
    ++ cityFeatures v.city

/-- Outcome of one run of the `predict` route: either `home.html` with a
`prediction_text` message, or `prediction.html` with the template
arguments of src/app.py lines 122-129. -/
inductive PredictOutcome
  | failure (prediction_text : String)
  | success (city location : String) (bedrooms bathrooms : Int)
      (floor_area : ℚ) (floor_no : Int) (predicted_price : String)
deriving DecidableEq, Repr

/-- The `predict` route of src/app.py lines 50-135, parametrised by the
two collaborators.  `enc loc = none` models `target_encoder.transform`
raising, `model v = none` models `model.predict` raising (or yielding
nothing indexable); both exceptions are caught by the generic handler of
lines 131-135, which returns `genericErrorMsg`. -/
def predict (enc : String → Option ℚ) (model : List ℚ → Option ℚ)
    (req : RawRequest) : PredictOutcome :=
  match extractValidated req with
  | .error msg => .failure msg
  | .ok v =>
    match enc v.location with
    | none => .failure genericErrorMsg
    | some e =>
      match model (assembleVector v e) with
      | none => .failure genericErrorMsg
      | some p =>
        .success (displayCity v.city) v.location v.bedrooms v.bathrooms
          v.floor_area v.floor_no (formatPrice p)

/-- Number of times `model.predict` is invoked during one run of the
route: the single call site (src/app.py line 118) is reached exactly
when validation succeeds and the target-encoder transform (line 115)
does not raise. -/
def modelCallCount (enc : String → Option ℚ) (req : RawRequest) : Nat :=
  match extractValidated req with
  | .error _ => 0
  | .ok v =>
    match enc v.location with
    | none => 0
    | some _ => 1

/-- The string handed to the target encoder when the encoding stage
(src/app.py line 115) is reached, `none` when validation already
failed. -/
def encoderArg (req : RawRequest) : Option String :=
  match extractValidated req with
  | .error _ => none
  | .ok v => some v.location

/-- The request of the Dhaka scenario:
`{city: "City_dhaka", location: "Mirpur", bedrooms: "3", bathrooms: "2",
floor_area: "1200.5", floor_no: "4"}`. -/
def reqDhaka : RawRequest :=
  ⟨some "City_dhaka", some "Mirpur", some "3", some "2", some "1200.5", some "4"⟩

/-- The Dhaka scenario request with the location replaced by a single
space — every field a non-empty string, the location pure whitespace. -/
def reqWsLocation : RawRequest :=
  ⟨some "City_dhaka", some " ", some "3", some "2", some "1200.5", some "4"⟩

/-- The four messages the validation chain (src/app.py lines 64-90) can
produce. -/
def validationMsgs : List String :=
  [missingFieldMsg, invalidCityMsg, invalidNumberMsg, outOfRangeMsg]

/-- All messages the route can produce on failure: the four validation
messages plus the generic handler's message. -/
def routeFailureMsgs : List String :=
  validationMsgs ++ [genericErrorMsg]

/-! ## Helper lemmas about the validation chain -/

lemma extract_none_missing (req : RawRequest)
    (h : req.city = none ∨ req.location = none ∨ req.bedrooms = none
      ∨ req.bathrooms = none ∨ req.floor_area = none ∨ req.floor_no = none) :
    extractValidated req = .error missingFieldMsg := by
  rcases req with ⟨c, l, b, t, f, n⟩
  unfold extractValidated
  rcases h with h | h | h | h | h | h <;> simp_all

lemma extract_empty_missing (c l b t f n : String)
    (h : c = "" ∨ l = "" ∨ b = "" ∨ t = "" ∨ f = "" ∨ n = "") :
    extractValidated ⟨some c, some l, some b, some t, some f, some n⟩
      = .error missingFieldMsg := by
  unfold extractValidated
  simp [h]

lemma extract_invalid_city (c l b t f n : String)
    (hne : ¬(c = "" ∨ l = "" ∨ b = "" ∨ t = "" ∨ f = "" ∨ n = ""))
    (hc : c ∉ VALID_CITIES) :
    extractValidated ⟨some c, some l, some b, some t, some f, some n⟩
      = .error invalidCityMsg := by
  unfold extractValidated
  simp [hne, hc]

lemma extract_invalid_number (c l b t f n : String)
    (hne : ¬(c = "" ∨ l = "" ∨ b = "" ∨ t = "" ∨ f = "" ∨ n = ""))
    (hc : c ∈ VALID_CITIES)
    (hp : pyParseInt b = none ∨ pyParseInt t = none ∨ pyParseFloat f = none
      ∨ pyParseInt n = none) :
    extractValidated ⟨some c, some l, some b, some t, some f, some n⟩
      = .error invalidNumberMsg := by
  unfold extractValidated
  simp only [hne, if_false, hc, not_true_eq_false]
  rcases hp with hp | hp | hp | hp <;> rw [hp] <;>
    cases pyParseInt b <;> cases pyParseInt t <;> cases pyParseFloat f <;>
    cases pyParseInt n <;> simp_all

lemma extract_out_of_range (c l b t f n : String) (bb bt : Int) (fa : ℚ) (fn : Int)
    (hne : ¬(c = "" ∨ l = "" ∨ b = "" ∨ t = "" ∨ f = "" ∨ n = ""))
    (hc : c ∈ VALID_CITIES)
    (hb : pyParseInt b = some bb) (ht : pyParseInt t = some bt)
    (hf : pyParseFloat f = some fa) (hn : pyParseInt n = some fn)
    (hr : bb ≤ 0 ∨ bt ≤ 0 ∨ fa ≤ 0 ∨ fn ≤ 0) :
    extractValidated ⟨some c, some l, some b, some t, some f, some n⟩
      = .error outOfRangeMsg := by
  unfold extractValidated
  simp [hne, hc, hb, ht, hf, hn, hr]

lemma extract_cases (req : RawRequest) :
    extractValidated req = .error missingFieldMsg
    ∨ extractValidated req = .error invalidCityMsg
    ∨ extractValidated req = .error invalidNumberMsg
    ∨ extractValidated req = .error outOfRangeMsg
    ∨ ∃ v, extractValidated req = .ok v ∧ v.city ∈ VALID_CITIES := by
  unfold extractValidated
  split
  · rename_i c l b t f n ec el eb et ef en
    split_ifs with h1 h2
    all_goals try exact Or.inl rfl
    all_goals try exact Or.inr (Or.inl rfl)
    rcases hb : pyParseInt b with _ | bb <;>
      rcases ht : pyParseInt t with _ | bt <;>
      rcases hf : pyParseFloat f with _ | fa <;>
      rcases hn : pyParseInt n with _ | fn
    all_goals try exact Or.inr (Or.inr (Or.inl rfl))
    dsimp only
    split_ifs with h3
    · exact Or.inr (Or.inr (Or.inr (Or.inl rfl)))
    · exact Or.inr (Or.inr (Or.inr (Or.inr ⟨_, rfl, h2⟩)))
  · exact Or.inl rfl

lemma extract_ok_contains (req : RawRequest) (v : Validated)
    (h : extractValidated req = .ok v) : v.city ∈ VALID_CITIES := by
  rcases extract_cases req with hc | hc | hc | hc | ⟨v', hv', hm⟩
  · rw [hc] at h; exact absurd h (by simp)
  · rw [hc] at h; exact absurd h (by simp)
  · rw [hc] at h; exact absurd h (by simp)
  · rw [hc] at h; exact absurd h (by simp)
  · rw [hv'] at h
    injection h with h2
    subst h2
    exact hm

lemma extract_error_mem (req : RawRequest) (msg : String)
    (h : extractValidated req = .error msg) : msg ∈ validationMsgs := by
  rcases extract_cases req with hc | hc | hc | hc | ⟨v', hv', hm⟩
  · rw [hc] at h; injection h with h2; subst h2; simp [validationMsgs]
  · rw [hc] at h; injection h with h2; subst h2; simp [validationMsgs]
  · rw [hc] at h; injection h with h2; subst h2; simp [validationMsgs]
  · rw [hc] at h; injection h with h2; subst h2; simp [validationMsgs]
  · rw [hv'] at h; exact absurd h (by simp)

lemma presence_fields (req : RawRequest) (h : presenceOk req = true) :
    ∃ c l b t f n, req = ⟨some c, some l, some b, some t, some f, some n⟩
      ∧ ¬(c = "" ∨ l = "" ∨ b = "" ∨ t = "" ∨ f = "" ∨ n = "") := by
  rcases req with ⟨c, l, b, t, f, n⟩
  cases c <;> cases l <;> cases b <;> cases t <;> cases f <;> cases n <;>
    first
      | (refine ⟨_, _, _, _, _, _, rfl, ?_⟩
         simp_all [presenceOk, strTruthy])
      | simp_all [presenceOk, strTruthy]

lemma presence_false_of_absent_or_empty (req : RawRequest)
    (h : req.city = none ∨ req.city = some "" ∨ req.location = none ∨ req.location = some ""
      ∨ req.bedrooms = none ∨ req.bedrooms = some "" ∨ req.bathrooms = none
      ∨ req.bathrooms = some "" ∨ req.floor_area = none ∨ req.floor_area = some ""
      ∨ req.floor_no = none ∨ req.floor_no = some "") :
    presenceOk req = false := by
  rcases req with ⟨c, l, b, t, f, n⟩
  rcases h with h | h | h | h | h | h | h | h | h | h | h | h <;>
    simp_all [presenceOk, strTruthy]

lemma presence_false_missing (req : RawRequest) (h : presenceOk req = false) :
    extractValidated req = .error missingFieldMsg := by
  rcases req with ⟨c, l, b, t, f, n⟩
  cases c <;> cases l <;> cases b <;> cases t <;> cases f <;> cases n <;>
    first
      | (apply extract_none_missing
         simp
         done)
      | (apply extract_empty_missing
         by_contra hne
         push_neg at hne
         simp_all [presenceOk, strTruthy])

lemma cityFeatures_sum_one (c : String) (h : c ∈ VALID_CITIES) :
    (cityFeatures c).sum = 1 := by
  simp only [VALID_CITIES, List.mem_cons, List.not_mem_nil, or_false] at h
  rcases h with rfl | rfl | rfl | rfl | rfl <;> simp [cityFeatures, VALID_CITIES]

lemma predict_of_error (enc : String → Option ℚ) (model : List ℚ → Option ℚ)
    (req : RawRequest) (msg : String) (h : extractValidated req = .error msg) :
    predict enc model req = .failure msg := by
  unfold predict
  rw [h]

lemma predict_of_ok (enc : String → Option ℚ) (model : List ℚ → Option ℚ)
    (req : RawRequest) (v : Validated) (h : extractValidated req = .ok v) :
    predict enc model req
      = match enc v.location with
        | none => .failure genericErrorMsg
        | some e =>
          match model (assembleVector v e) with
          | none => .failure genericErrorMsg
          | some p =>
            .success (displayCity v.city) v.location v.bedrooms v.bathrooms
              v.floor_area v.floor_no (formatPrice p) := by
  unfold predict
  rw [h]

lemma extract_ok (c l b t f n : String) (bb bt : Int) (fa : ℚ) (fn : Int)
    (hne : ¬(c = "" ∨ l = "" ∨ b = "" ∨ t = "" ∨ f = "" ∨ n = ""))
    (hc : c ∈ VALID_CITIES)
    (hb : pyParseInt b = some bb) (ht : pyParseInt t = some bt)
    (hf : pyParseFloat f = some fa) (hn : pyParseInt n = some fn)
    (hr : ¬(bb ≤ 0 ∨ bt ≤ 0 ∨ fa ≤ 0 ∨ fn ≤ 0)) :
    extractValidated ⟨some c, some l, some b, some t, some f, some n⟩
      = .ok ⟨c, l, bb, bt, fa, fn⟩ := by
  unfold extractValidated
  simp [hne, hc, hb, ht, hf, hn, hr]


lemma extract_ne_missing (req : RawRequest) (hp : presenceOk req = true) :
    extractValidated req ≠ .error missingFieldMsg := by
  obtain ⟨c, l, b, t, f, n, rfl, hne⟩ := presence_fields req hp
  unfold extractValidated
  dsimp only
  rw [if_neg hne]
  split_ifs with h2
  · split
    · split_ifs with h3
      · simp [outOfRangeMsg, missingFieldMsg]
      · simp
    · simp [invalidNumberMsg, missingFieldMsg]
  · simp [invalidCityMsg, missingFieldMsg]

lemma predict_ne_missing (enc : String → Option ℚ) (model : List ℚ → Option ℚ)
    (req : RawRequest) (hp : presenceOk req = true) :
    predict enc model req ≠ .failure missingFieldMsg := by
  cases hv : extractValidated req with
  | error m =>
    rw [predict_of_error _ _ _ _ hv]
    intro hcontra
    injection hcontra with h2
    subst h2
    exact extract_ne_missing req hp hv
  | ok v =>
    rw [predict_of_ok _ _ _ _ hv]
    cases he : enc v.location with
    | none => simp [genericErrorMsg, missingFieldMsg]
    | some e =>
      cases hm : model (assembleVector v e) with
      | none => simp [hm, genericErrorMsg, missingFieldMsg]
      | some p => simp [hm]

lemma predict_failure_mem (enc : String → Option ℚ) (model : List ℚ → Option ℚ)
    (req : RawRequest) (msg : String) (h : predict enc model req = .failure msg) :
    msg ∈ routeFailureMsgs := by
  unfold predict at h
  split at h
  · rename_i m hm
    injection h with h2
    subst h2
    exact List.mem_append_left _ (extract_error_mem _ _ hm)
  · rename_i v hv
    split at h
    · injection h with h2
      subst h2
      simp [routeFailureMsgs]
    · rename_i e he
      split at h
      · injection h with h2
        subst h2
        simp [routeFailureMsgs]
      · exact absurd h (by simp)

lemma parseFloat_1200_5 : pyParseFloat "1200.5" = some (1200.5 : ℚ) := by
  rw [show pyParseFloat "1200.5" = some (pyFloatVal 12005 1 0) from rfl]
  norm_num [pyFloatVal]

lemma formatPrice_4500000 : formatPrice 4500000 = "4,500,000.00" := by
  unfold formatPrice
  rw [show round ((4500000 : ℚ) * 100) = (450000000 : ℤ) by norm_num]
  decide

lemma extract_reqDhaka :
    extractValidated reqDhaka = .ok ⟨"City_dhaka", "Mirpur", 3, 2, (1200.5 : ℚ), 4⟩ := by
  refine extract_ok "City_dhaka" "Mirpur" "3" "2" "1200.5" "4" 3 2 (1200.5 : ℚ) 4
    (by decide) (by decide) (by decide) (by decide) parseFloat_1200_5 (by decide) ?_
  push_neg
  exact ⟨by decide, by decide, by norm_num, by decide⟩



/-- C1: for every input that passes validation, the feature vector handed
to `model.predict` has exactly 10 columns, in the schema order
`[bedrooms, bathrooms, floor_no, floor_area, encoded_location,
City_chattogram, City_cumilla, City_dhaka, City_gazipur,
City_narayanganj-city]`, and the five city one-hot entries sum to
exactly 1. -/
theorem claim1_feature_vector_schema (enc : String → Option ℚ)
    (model : List ℚ → Option ℚ) (req : RawRequest) (v : Validated) (e : ℚ)
    (hv : extractValidated req = .ok v) (he : enc v.location = some e) :
    (assembleVector v e).length = 10
    ∧ assembleVector v e
        = [(v.bedrooms : ℚ), (v.bathrooms : ℚ), (v.floor_no : ℚ), v.floor_area, e]
          ++ VALID_CITIES.map (fun c => if c = v.city then 1 else 0)
    ∧ (cityFeatures v.city).sum = 1
    ∧ predict enc model req
        = match model (assembleVector v e) with
          | none => PredictOutcome.failure genericErrorMsg
          | some p => PredictOutcome.success (displayCity v.city) v.location
              v.bedrooms v.bathrooms v.floor_area v.floor_no (formatPrice p) := by
  refine ⟨?_, rfl, cityFeatures_sum_one _ (extract_ok_contains _ _ hv), ?_⟩
  · simp [assembleVector, cityFeatures, VALID_CITIES]
  · rw [predict_of_ok _ _ _ _ hv, he]

theorem claim1_feature_vector_schema_witness :
    (assembleVector ⟨"City_dhaka", "Mirpur", 3, 2, (1200.5 : ℚ), 4⟩ 7).length = 10
    ∧ (cityFeatures "City_dhaka").sum = 1 :=
  ⟨(claim1_feature_vector_schema (fun _ => some 7) (fun _ => some 4500000) reqDhaka
      ⟨"City_dhaka", "Mirpur", 3, 2, (1200.5 : ℚ), 4⟩ 7 extract_reqDhaka rfl).1,
   (claim1_feature_vector_schema (fun _ => some 7) (fun _ => some 4500000) reqDhaka
      ⟨"City_dhaka", "Mirpur", 3, 2, (1200.5 : ℚ), 4⟩ 7 extract_reqDhaka rfl).2.2.1⟩

/-- C2: the route has no schema-error classification at all — every
failure message it can produce is one of the four validation messages or
the generic handler's message; no explicit 10-column check exists and no
distinct `SchemaError` classification is ever returned (the spec's
`SchemaError` has no counterpart in the code). -/
theorem claim2_no_schema_error_classification (enc : String → Option ℚ)
    (model : List ℚ → Option ℚ) (req : RawRequest) (msg : String)
    (h : predict enc model req = .failure msg) : msg ∈ routeFailureMsgs :=
  predict_failure_mem enc model req msg h

theorem claim2_no_schema_error_classification_witness :
    missingFieldMsg ∈ routeFailureMsgs :=
  claim2_no_schema_error_classification (fun _ => some 7) (fun _ => some 0)
    ⟨none, none, none, none, none, none⟩ missingFieldMsg rfl

/-- C5: for each of the five valid city identifiers, the city encoding is
the 5-element 0/1 vector whose only 1 sits at the index of that city in
the enumeration order of `VALID_CITIES`. -/
theorem claim5_city_one_hot (i : Fin VALID_CITIES.length) :
    cityFeatures (VALID_CITIES.get i)
      = (List.replicate VALID_CITIES.length (0 : ℚ)).set i.val 1 := by
  fin_cases i <;> simp [cityFeatures, VALID_CITIES, List.replicate] <;> decide

/-- C7: the Dhaka scenario — on input `{city: "City_dhaka", location:
"Mirpur", bedrooms: "3", bathrooms: "2", floor_area: "1200.5",
floor_no: "4"}` with an encoder stub returning 7.0 and a model stub
returning 4500000.0, the pipeline succeeds, the displayed city is
"Dhaka" and the price is formatted "4,500,000.00". -/
theorem claim7_dhaka_scenario :
    predict (fun _ => some 7) (fun _ => some 4500000) reqDhaka
      = .success "Dhaka" "Mirpur" 3 2 (1200.5 : ℚ) 4 "4,500,000.00" := by
  rw [predict_of_ok _ _ _ _ extract_reqDhaka]
  dsimp only
  rw [formatPrice_4500000]
  rfl



/-- C3: validation checks run in the fixed order presence → city domain →
numeric parse → numeric range, the first failing check determining the
single reported error; in particular a request with all six fields
present but a city outside the enumeration is classified with the
invalid-city message regardless of the numeric fields. -/
theorem claim3_validation_check_order (enc : String → Option ℚ)
    (model : List ℚ → Option ℚ) (req : RawRequest) :
    (presenceOk req = false → predict enc model req = .failure missingFieldMsg)
    ∧ (∀ c, presenceOk req = true → req.city = some c → c ∉ VALID_CITIES →
        predict enc model req = .failure invalidCityMsg)
    ∧ (∀ c b t f n, presenceOk req = true → req.city = some c → c ∈ VALID_CITIES →
        req.bedrooms = some b → req.bathrooms = some t → req.floor_area = some f →
        req.floor_no = some n →
        (pyParseInt b = none ∨ pyParseInt t = none ∨ pyParseFloat f = none
          ∨ pyParseInt n = none) →
        predict enc model req = .failure invalidNumberMsg)
    ∧ (∀ c b t f n bb bt fa fn, presenceOk req = true → req.city = some c →
        c ∈ VALID_CITIES → req.bedrooms = some b → req.bathrooms = some t →
        req.floor_area = some f → req.floor_no = some n →
        pyParseInt b = some bb → pyParseInt t = some bt → pyParseFloat f = some fa →
        pyParseInt n = some fn → (bb ≤ 0 ∨ bt ≤ 0 ∨ fa ≤ 0 ∨ fn ≤ 0) →
        predict enc model req = .failure outOfRangeMsg) := by
  refine ⟨?_, ?_, ?_, ?_⟩
  · intro hp
    exact predict_of_error _ _ _ _ (presence_false_missing req hp)
  · intro c hp hcity hdom
    obtain ⟨c', l', b', t', f', n', rfl, hne⟩ := presence_fields req hp
    injection hcity with hceq
    subst hceq
    exact predict_of_error _ _ _ _ (extract_invalid_city _ _ _ _ _ _ hne hdom)
  · intro c b t f n hp hcity hdom hb ht hf hn hparse
    obtain ⟨c', l', b', t', f', n', rfl, hne⟩ := presence_fields req hp
    injection hcity with hceq
    injection hb with hbeq
    injection ht with hteq
    injection hf with hfeq
    injection hn with hneq
    subst hceq; subst hbeq; subst hteq; subst hfeq; subst hneq
    exact predict_of_error _ _ _ _ (extract_invalid_number _ _ _ _ _ _ hne hdom hparse)
  · intro c b t f n bb bt fa fn hp hcity hdom hb ht hf hn hpb hpt hpf hpn hr
    obtain ⟨c', l', b', t', f', n', rfl, hne⟩ := presence_fields req hp
    injection hcity with hceq
    injection hb with hbeq
    injection ht with hteq
    injection hf with hfeq
    injection hn with hneq
    subst hceq; subst hbeq; subst hteq; subst hfeq; subst hneq
    exact predict_of_error _ _ _ _
      (extract_out_of_range _ _ _ _ _ _ _ _ _ _ hne hdom hpb hpt hpf hpn hr)

theorem claim3_validation_check_order_witness :
    predict (fun _ => some 7) (fun _ => some 0)
        ⟨some "City_dhaka", none, some "3", some "2", some "1200.5", some "4"⟩
      = .failure missingFieldMsg
    ∧ predict (fun _ => some 7) (fun _ => some 0)
        ⟨some "Dhaka", some "Mirpur", some "3", some "2", some "1200.5", some "4"⟩
      = .failure invalidCityMsg
    ∧ predict (fun _ => some 7) (fun _ => some 0)
        ⟨some "City_dhaka", some "Mirpur", some "abc", some "2", some "1200.5", some "4"⟩
      = .failure invalidNumberMsg
    ∧ predict (fun _ => some 7) (fun _ => some 0)
        ⟨some "City_dhaka", some "Mirpur", some "-1", some "2", some "1200.5", some "4"⟩
      = .failure outOfRangeMsg :=
  ⟨(claim3_validation_check_order _ _ _).1 (by decide),
   (claim3_validation_check_order _ _ _).2.1 "Dhaka" (by decide) rfl (by decide),
   (claim3_validation_check_order _ _ _).2.2.1 "City_dhaka" "abc" "2" "1200.5" "4"
     (by decide) rfl (by decide) rfl rfl rfl rfl (Or.inl (by decide)),
   (claim3_validation_check_order _ _ _).2.2.2 "City_dhaka" "-1" "2" "1200.5" "4"
     (-1) 2 (pyFloatVal 12005 1 0) 4
     (by decide) rfl (by decide) rfl rfl rfl rfl (by decide) (by decide) rfl (by decide)
     (Or.inl (by decide))⟩

/-- C4: for a request with all fields present, a valid city, and all
numeric fields parsing, any parsed value ≤ 0 is classified with the
out-of-range message, not the invalid-number message. -/
theorem claim4_nonpositive_out_of_range (enc : String → Option ℚ)
    (model : List ℚ → Option ℚ) (req : RawRequest) (c b t f n : String)
    (bb bt : Int) (fa : ℚ) (fn : Int)
    (hp : presenceOk req = true) (hcity : req.city = some c)
    (hdom : c ∈ VALID_CITIES) (hb : req.bedrooms = some b)
    (ht : req.bathrooms = some t) (hf : req.floor_area = some f)
    (hn : req.floor_no = some n) (hpb : pyParseInt b = some bb)
    (hpt : pyParseInt t = some bt) (hpf : pyParseFloat f = some fa)
    (hpn : pyParseInt n = some fn) (hr : bb ≤ 0 ∨ bt ≤ 0 ∨ fa ≤ 0 ∨ fn ≤ 0) :
    predict enc model req = .failure outOfRangeMsg
    ∧ outOfRangeMsg ≠ invalidNumberMsg := by
  obtain ⟨c', l', b', t', f', n', rfl, hne⟩ := presence_fields req hp
  injection hcity with hceq
  injection hb with hbeq
  injection ht with hteq
  injection hf with hfeq
  injection hn with hneq
  subst hceq; subst hbeq; subst hteq; subst hfeq; subst hneq
  exact ⟨predict_of_error _ _ _ _
      (extract_out_of_range _ _ _ _ _ _ _ _ _ _ hne hdom hpb hpt hpf hpn hr),
    by decide⟩

theorem claim4_nonpositive_out_of_range_witness :
    predict (fun _ => some 7) (fun _ => some 0)
        ⟨some "City_dhaka", some "Mirpur", some "-1", some "2", some "1200.5", some "4"⟩
      = .failure outOfRangeMsg
    ∧ outOfRangeMsg ≠ invalidNumberMsg :=
  claim4_nonpositive_out_of_range (fun _ => some 7) (fun _ => some 0)
    ⟨some "City_dhaka", some "Mirpur", some "-1", some "2", some "1200.5", some "4"⟩
    "City_dhaka" "-1" "2" "1200.5" "4" (-1) 2 (pyFloatVal 12005 1 0) 4
    (by decide) rfl (by decide) rfl rfl rfl rfl (by decide) (by decide) rfl (by decide)
    (Or.inl (by decide))

/-- C6: whenever any of the six fields is absent or empty, the pipeline
fails with the missing-field message, `model.predict` is never invoked
(call count 0), and the encoding stage is never reached. -/
theorem claim6_missing_field_no_model_call (enc : String → Option ℚ)
    (model : List ℚ → Option ℚ) (req : RawRequest)
    (h : req.city = none ∨ req.city = some "" ∨ req.location = none
      ∨ req.location = some "" ∨ req.bedrooms = none ∨ req.bedrooms = some ""
      ∨ req.bathrooms = none ∨ req.bathrooms = some "" ∨ req.floor_area = none
      ∨ req.floor_area = some "" ∨ req.floor_no = none ∨ req.floor_no = some "") :
    predict enc model req = .failure missingFieldMsg
    ∧ modelCallCount enc req = 0
    ∧ encoderArg req = none := by
  have hm := presence_false_missing req (presence_false_of_absent_or_empty req h)
  refine ⟨predict_of_error _ _ _ _ hm, ?_, ?_⟩
  · unfold modelCallCount
    rw [hm]
  · unfold encoderArg
    rw [hm]

theorem claim6_missing_field_no_model_call_witness :
    predict (fun _ => some 7) (fun _ => some 4500000)
        ⟨some "City_dhaka", none, some "3", some "2", some "1200.5", some "4"⟩
      = .failure missingFieldMsg
    ∧ modelCallCount (fun _ => some 7)
        ⟨some "City_dhaka", none, some "3", some "2", some "1200.5", some "4"⟩ = 0
    ∧ encoderArg ⟨some "City_dhaka", none, some "3", some "2", some "1200.5", some "4"⟩
      = none :=
  claim6_missing_field_no_model_call (fun _ => some 7) (fun _ => some 4500000)
    ⟨some "City_dhaka", none, some "3", some "2", some "1200.5", some "4"⟩
    (Or.inr (Or.inr (Or.inl rfl)))



lemma extract_reqWsLocation :
    extractValidated reqWsLocation = .ok ⟨"City_dhaka", " ", 3, 2, (1200.5 : ℚ), 4⟩ := by
  refine extract_ok "City_dhaka" " " "3" "2" "1200.5" "4" 3 2 (1200.5 : ℚ) 4
    (by decide) (by decide) (by decide) (by decide) parseFloat_1200_5 (by decide) ?_
  push_neg
  exact ⟨by decide, by decide, by norm_num, by decide⟩

/-- C8 counterexample: two different failure kinds of the taxonomy — an
encoder (EncodingError) failure and a model (InferenceError) failure —
produce the identical generic message on the same valid input, so the
kinds are not distinguishable from the user-visible classification. -/
theorem claim8_distinct_messages_counterexample :
    predict (fun _ => none) (fun _ => some 0) reqDhaka = .failure genericErrorMsg
    ∧ predict (fun _ => some 7) (fun _ => none) reqDhaka = .failure genericErrorMsg := by
  constructor
  · rw [predict_of_ok _ _ _ _ extract_reqDhaka]
  · rw [predict_of_ok _ _ _ _ extract_reqDhaka]

/-- C8 (amended): the four validation failures carry pairwise distinct
messages and no failure is silently swallowed (every failing run yields
one of the five fixed messages), but encoder, schema and inference
failures are all caught by the generic handler and share one identical
generic message. -/
theorem claim8_amended_message_taxonomy :
    List.Pairwise (· ≠ ·) routeFailureMsgs
    ∧ (∀ (enc : String → Option ℚ) (model : List ℚ → Option ℚ)
        (req : RawRequest) (msg : String),
        predict enc model req = PredictOutcome.failure msg → msg ∈ routeFailureMsgs)
    ∧ predict (fun _ => none) (fun _ => some 0) reqDhaka = .failure genericErrorMsg
    ∧ predict (fun _ => some 7) (fun _ => none) reqDhaka = .failure genericErrorMsg := by
  refine ⟨by decide, predict_failure_mem, ?_, ?_⟩
  · rw [predict_of_ok _ _ _ _ extract_reqDhaka]
  · rw [predict_of_ok _ _ _ _ extract_reqDhaka]

theorem claim8_amended_message_taxonomy_witness :
    missingFieldMsg ∈ routeFailureMsgs :=
  claim8_amended_message_taxonomy.2.1 (fun _ => some 7) (fun _ => some 0)
    ⟨none, none, none, none, none, none⟩ missingFieldMsg rfl

/-- C9: the pipeline is deterministic — with pointwise-equal (hence
behaviourally identical) encoder and model collaborators, two runs on
the same raw input produce identical output. -/
theorem claim9_pipeline_deterministic (enc1 enc2 : String → Option ℚ)
    (model1 model2 : List ℚ → Option ℚ) (req : RawRequest)
    (henc : ∀ s, enc1 s = enc2 s) (hmodel : ∀ v, model1 v = model2 v) :
    predict enc1 model1 req = predict enc2 model2 req := by
  unfold predict
  cases hv : extractValidated req with
  | error m => rfl
  | ok v =>
    dsimp only
    rw [henc v.location]
    cases he : enc2 v.location with
    | none => rfl
    | some e =>
      dsimp only
      rw [hmodel (assembleVector v e)]

theorem claim9_pipeline_deterministic_witness :
    predict (fun _ => some 7) (fun _ => some 4500000) reqDhaka
      = predict (fun _ => some (3 + 4)) (fun _ => some (4500000 + 0)) reqDhaka :=
  claim9_pipeline_deterministic _ _ _ _ reqDhaka (fun s => by norm_num)
    (fun v => by norm_num)

/-- C10: the presence check accepts any non-empty string — a request
whose six fields are all non-empty passes presence even when the
location is pure whitespace, is never classified missing-field, and the
whitespace location is forwarded to the location-encoding stage. -/
theorem claim10_whitespace_location_passes_presence (req : RawRequest)
    (c l b t f n : String)
    (hc : req.city = some c) (hcne : c ≠ "")
    (hl : req.location = some l) (hlne : l ≠ "") (hws : l.toList.all isPyWs = true)
    (hb : req.bedrooms = some b) (hbne : b ≠ "")
    (ht : req.bathrooms = some t) (htne : t ≠ "")
    (hf : req.floor_area = some f) (hfne : f ≠ "")
    (hn : req.floor_no = some n) (hnne : n ≠ "") :
    presenceOk req = true
    ∧ (∀ (enc : String → Option ℚ) (model : List ℚ → Option ℚ),
        predict enc model req ≠ .failure missingFieldMsg)
    ∧ encoderArg reqWsLocation = some " " := by
  have hp : presenceOk req = true := by
    rcases req with ⟨c0, l0, b0, t0, f0, n0⟩
    cases hc; cases hl; cases hb; cases ht; cases hf; cases hn
    simp [presenceOk, strTruthy, hcne, hlne, hbne, htne, hfne, hnne]
  refine ⟨hp, fun enc model => predict_ne_missing enc model req hp, ?_⟩
  unfold encoderArg
  rw [extract_reqWsLocation]

theorem claim10_whitespace_location_passes_presence_witness :
    presenceOk reqWsLocation = true ∧ encoderArg reqWsLocation = some " " :=
  ⟨(claim10_whitespace_location_passes_presence reqWsLocation
      "City_dhaka" " " "3" "2" "1200.5" "4" rfl (by decide) rfl (by decide)
      (by decide) rfl (by decide) rfl (by decide) rfl (by decide) rfl (by decide)).1,
   (claim10_whitespace_location_passes_presence reqWsLocation
      "City_dhaka" " " "3" "2" "1200.5" "4" rfl (by decide) rfl (by decide)
      (by decide) rfl (by decide) rfl (by decide) rfl (by decide) rfl (by decide)).2.2⟩


end HousingPrice
